import Mathlib

/-!
Shallow embedding of the orpheus-blog-standalone server core: the relational
content tables (drizzle/schema.ts), the data-access layer (server/db.ts), the
tRPC routers (server/routers.ts), the auth service (server/_core/auth.ts), the
HTTP error constructors (shared/_core/errors.ts) and the upload procedures.
Timestamps are modelled as `Int` (milliseconds or seconds as in the source),
MySQL nullable columns as `Option`, and the lazily-connected drizzle handle
`getDb` as an `Option Db` argument: `none` is the "database not available"
state, `some db` the connected state.
-/

set_option maxRecDepth 4000

/-- Role enum of the `users` table: `mysqlEnum("role", ["user", "admin"])`. -/
inductive Role where
  | user
  | admin
deriving DecidableEq, Repr

/-- Row of the `users` table (drizzle/schema.ts). Nullable columns are
`Option`; `role` is NOT NULL with default `user`. -/
structure User where
  id : Nat
  openId : String
  name : Option String := none
  email : Option String := none
  loginMethod : Option String := none
  role : Role := .user
  createdAt : Int := 0
  updatedAt : Int := 0
  lastSignedIn : Int := 0
deriving DecidableEq, Repr

/-- Row of the `photos` table (drizzle/schema.ts). -/
structure Photo where
  id : Nat
  title : String
  description : Option String := none
  location : Option String := none
  camera : Option String := none
  lens : Option String := none
  settings : Option String := none
  imageUrl : String
  imageKey : Option String := none
  category : Option String := none
  tags : Option String := none
  featured : Option Bool := some false
  sortOrder : Option Int := some 0
  publishedAt : Option Int := none
  createdAt : Int := 0
  updatedAt : Int := 0
deriving DecidableEq, Repr

/-- Row of the `essays` table (drizzle/schema.ts). `published` is a nullable
boolean column with default `false`, hence `Option Bool`. -/
structure Essay where
  id : Nat
  title : String
  subtitle : Option String := none
  excerpt : Option String := none
  content : String
  coverImageUrl : Option String := none
  coverImageKey : Option String := none
  category : Option String := none
  tags : Option String := none
  readTime : Option Int := none
  featured : Option Bool := some false
  published : Option Bool := some false
  publishedAt : Option Int := none
  createdAt : Int := 0
  updatedAt : Int := 0
deriving DecidableEq, Repr

/-- Row of the `papers` table (drizzle/schema.ts). -/
structure Paper where
  id : Nat
  title : String
  authors : String
  abstract : Option String := none
  journal : Option String := none
  year : Option Int := none
  volume : Option String := none
  issue : Option String := none
  pages : Option String := none
  doi : Option String := none
  pdfUrl : Option String := none
  pdfKey : Option String := none
  category : Option String := none
  tags : Option String := none
  citations : Option Int := some 0
  featured : Option Bool := some false
  published : Option Bool := some false
  publishedAt : Option Int := none
  createdAt : Int := 0
  updatedAt : Int := 0
deriving DecidableEq, Repr

/-- Row of the `site_settings` table: unique `key`, nullable text `value`. -/
structure SiteSetting where
  key : String
  value : Option String := none
deriving DecidableEq, Repr

/-- The relational store: the five tables the server/db.ts layer touches. -/
structure Db where
  usersTable : List User := []
  photosTable : List Photo := []
  essaysTable : List Essay := []
  papersTable : List Paper := []
  settingsTable : List SiteSetting := []
deriving DecidableEq, Repr

/-! ### Ordering helpers

MySQL `ORDER BY col DESC` sorts non-NULL values descending with NULLs last.
`sortBy` is an insertion sort; only membership matters for the claims, proved
via `mem_sortBy` below. -/

/-- Insert `a` in front of the first element `b` with `le a b`. -/
def insertSorted (le : α → α → Bool) (a : α) : List α → List α
  | [] => [a]
  | b :: l => if le a b then a :: b :: l else b :: insertSorted le a l

/-- Insertion sort by the boolean relation `le` ("comes before or equal"). -/
def sortBy (le : α → α → Bool) : List α → List α
  | [] => []
  | a :: l => insertSorted le a (sortBy le l)

/-- `ORDER BY x DESC` comparison on a nullable integer column: larger values
first, NULLs last. Returns true when `a` may come before (or ties) `b`. -/
def optIntDesc (a b : Option Int) : Bool :=
  match a, b with
  | some x, some y => y ≤ x
  | some _, none => true
  | none, some _ => false
  | none, none => true

/-- `ORDER BY sortOrder DESC, createdAt DESC` of `getAllPhotos`. -/
def photoOrder (a b : Photo) : Bool :=
  if a.sortOrder = b.sortOrder then b.createdAt ≤ a.createdAt
  else optIntDesc a.sortOrder b.sortOrder

/-- `ORDER BY publishedAt DESC, createdAt DESC` of `getAllEssays`. -/
def essayOrder (a b : Essay) : Bool :=
  if a.publishedAt = b.publishedAt then b.createdAt ≤ a.createdAt
  else optIntDesc a.publishedAt b.publishedAt

/-- `ORDER BY year DESC, createdAt DESC` of `getAllPapers`. -/
def paperOrder (a b : Paper) : Bool :=
  if a.year = b.year then b.createdAt ≤ a.createdAt
  else optIntDesc a.year b.year

/-! ### List filters (server/db.ts getAllPhotos / getAllEssays / getAllPapers)

The JS options objects are optional; a field left `undefined` adds no
condition. `if (options?.category)` and `if (options?.limit)` are truthiness
checks, so an empty-string category and a zero limit add no condition either.
SQL `eq(col, b)` on a NULL cell is NULL, i.e. the row is filtered out, which
`· == some b` captures. -/

/-- Options of `getAllPhotos`. -/
structure PhotoListOptions where
  featured : Option Bool := none
  category : Option String := none
  limit : Option Nat := none
deriving DecidableEq, Repr

/-- Options of `getAllEssays` / `getAllPapers`. -/
structure ContentListOptions where
  published : Option Bool := none
  featured : Option Bool := none
  category : Option String := none
  limit : Option Nat := none
deriving DecidableEq, Repr

/-- The `conditions` array of `getAllPhotos`, conjoined by `and(...)`. -/
def photoCond (o : PhotoListOptions) (p : Photo) : Bool :=
  (match o.featured with | none => true | some b => p.featured == some b) &&
  (match o.category with
   | none => true
   | some c => if c = "" then true else p.category == some c)

/-- The `conditions` array of `getAllEssays`, conjoined by `and(...)`. -/
def essayCond (o : ContentListOptions) (e : Essay) : Bool :=
  (match o.published with | none => true | some b => e.published == some b) &&
  (match o.featured with | none => true | some b => e.featured == some b) &&
  (match o.category with
   | none => true
   | some c => if c = "" then true else e.category == some c)

/-- The `conditions` array of `getAllPapers`, conjoined by `and(...)`. -/
def paperCond (o : ContentListOptions) (p : Paper) : Bool :=
  (match o.published with | none => true | some b => p.published == some b) &&
  (match o.featured with | none => true | some b => p.featured == some b) &&
  (match o.category with
   | none => true
   | some c => if c = "" then true else p.category == some c)

/-- `query.limit(n)` applied only when `options?.limit` is truthy. -/
def applyLimit (limit : Option Nat) (l : List α) : List α :=
  match limit with
  | none => l
  | some n => if n = 0 then l else l.take n

/-- db.ts `getAllPhotos`: returns `[]` when the database is unavailable. -/
def getAllPhotos (db? : Option Db) (options : Option PhotoListOptions) : List Photo :=
  match db? with
  | none => []
  | some db =>
      let o := options.getD {}
      applyLimit o.limit (sortBy photoOrder (db.photosTable.filter (photoCond o)))

/-- db.ts `getPhotoById`: `undefined` when unavailable or the id is absent. -/
def getPhotoById (db? : Option Db) (id : Nat) : Option Photo :=
  match db? with
  | none => none
  | some db => (db.photosTable.filter (fun p => p.id == id)).head?

/-- db.ts `getAllEssays`. -/
def getAllEssays (db? : Option Db) (options : Option ContentListOptions) : List Essay :=
  match db? with
  | none => []
  | some db =>
      let o := options.getD {}
      applyLimit o.limit (sortBy essayOrder (db.essaysTable.filter (essayCond o)))

/-- db.ts `getEssayById`. -/
def getEssayById (db? : Option Db) (id : Nat) : Option Essay :=
  match db? with
  | none => none
  | some db => (db.essaysTable.filter (fun e => e.id == id)).head?

/-- db.ts `getAllPapers`. -/
def getAllPapers (db? : Option Db) (options : Option ContentListOptions) : List Paper :=
  match db? with
  | none => []
  | some db =>
      let o := options.getD {}
      applyLimit o.limit (sortBy paperOrder (db.papersTable.filter (paperCond o)))

/-- db.ts `getPaperById`. -/
def getPaperById (db? : Option Db) (id : Nat) : Option Paper :=
  match db? with
  | none => none
  | some db => (db.papersTable.filter (fun p => p.id == id)).head?

/-! ### Public list procedures (server/routers.ts)

`essays.list` runs `db.getAllEssays({ ...input, published: true })`: the
JS spread puts the forced `published: true` after the caller's fields, so it
overrides any caller-supplied `published` (including an explicit `false`).
`essays.listAll` (admin) passes `input` through unchanged. Same for papers. -/

/-- routers.ts `essays.list` (public). -/
def essaysList (db? : Option Db) (input : Option ContentListOptions) : List Essay :=
  getAllEssays db? (some { input.getD {} with published := some true })

/-- routers.ts `essays.listAll` (admin handler body). -/
def essaysListAll (db? : Option Db) (input : Option ContentListOptions) : List Essay :=
  getAllEssays db? input

/-- routers.ts `papers.list` (public). -/
def papersList (db? : Option Db) (input : Option ContentListOptions) : List Paper :=
  getAllPapers db? (some { input.getD {} with published := some true })

/-- routers.ts `papers.listAll` (admin handler body). -/
def papersListAll (db? : Option Db) (input : Option ContentListOptions) : List Paper :=
  getAllPapers db? input

/-! ### Create / update / delete (server/db.ts)

Insert shapes carry the caller-settable columns; `none` means the field was
omitted, so the schema default applies (`featured`/`published` default
`false`, `sortOrder`/`citations` default `0`, other nullable columns default
NULL, `createdAt`/`updatedAt` default now). Every caller in src reaches these
through zod `.optional()` inputs, which produce `undefined` but never `null`,
so omitted-vs-null need not be distinguished here. Patch shapes model
drizzle's `update().set()` over `Partial<Insert...>`: `none` means the column
is left untouched. Writes throw `"Database not available"` when `getDb`
yields no handle; the success payloads mirror the source's
`{ id: insertId }` and `{ success: true }`. -/

/-- `{ id: result[0].insertId }` returned by the create functions. -/
structure InsertId where
  id : Nat
deriving DecidableEq, Repr

/-- `{ success: true }` returned by update/delete/setSetting. -/
structure OkResult where
  success : Bool
deriving DecidableEq, Repr

/-- The next AUTO_INCREMENT value of a table, given the used ids. -/
def nextId (ids : List Nat) : Nat := ids.foldr max 0 + 1

/-- Insertable columns of `photos` (InsertPhoto in drizzle/schema.ts). -/
structure InsertPhoto where
  title : String
  description : Option String := none
  location : Option String := none
  camera : Option String := none
  lens : Option String := none
  settings : Option String := none
  imageUrl : String
  imageKey : Option String := none
  category : Option String := none
  tags : Option String := none
  featured : Option Bool := none
  sortOrder : Option Int := none
  publishedAt : Option Int := none
deriving DecidableEq, Repr

/-- Row produced by `db.insert(photos).values(i)` with schema defaults. -/
def photoFromInsert (now : Int) (freshId : Nat) (i : InsertPhoto) : Photo :=
  { id := freshId, title := i.title, description := i.description,
    location := i.location, camera := i.camera, lens := i.lens,
    settings := i.settings, imageUrl := i.imageUrl, imageKey := i.imageKey,
    category := i.category, tags := i.tags,
    featured := some (i.featured.getD false),
    sortOrder := some (i.sortOrder.getD 0),
    publishedAt := i.publishedAt, createdAt := now, updatedAt := now }

/-- db.ts `createPhoto`. -/
def createPhoto (now : Int) (db? : Option Db) (i : InsertPhoto) :
    Except String (InsertId × Db) :=
  match db? with
  | none => .error "Database not available"
  | some db =>
      let fid := nextId (db.photosTable.map (fun p => p.id))
      .ok ({ id := fid },
           { db with photosTable := db.photosTable ++ [photoFromInsert now fid i] })

/-- `Partial<InsertPhoto>` accepted by `updatePhoto`. -/
structure PhotoPatch where
  title : Option String := none
  description : Option String := none
  location : Option String := none
  camera : Option String := none
  lens : Option String := none
  settings : Option String := none
  imageUrl : Option String := none
  imageKey : Option String := none
  category : Option String := none
  tags : Option String := none
  featured : Option Bool := none
  sortOrder : Option Int := none
  publishedAt : Option Int := none
deriving DecidableEq, Repr

/-- drizzle `update(photos).set(patch)`: defined fields overwrite, the
`ON UPDATE now()` column refreshes. -/
def applyPhotoPatch (now : Int) (p : PhotoPatch) (x : Photo) : Photo :=
  { x with
    title := p.title.getD x.title,
    description := match p.description with | some v => some v | none => x.description,
    location := match p.location with | some v => some v | none => x.location,
    camera := match p.camera with | some v => some v | none => x.camera,
    lens := match p.lens with | some v => some v | none => x.lens,
    settings := match p.settings with | some v => some v | none => x.settings,
    imageUrl := p.imageUrl.getD x.imageUrl,
    imageKey := match p.imageKey with | some v => some v | none => x.imageKey,
    category := match p.category with | some v => some v | none => x.category,
    tags := match p.tags with | some v => some v | none => x.tags,
    featured := match p.featured with | some v => some v | none => x.featured,
    sortOrder := match p.sortOrder with | some v => some v | none => x.sortOrder,
    publishedAt := match p.publishedAt with | some v => some v | none => x.publishedAt,
    updatedAt := now }

/-- db.ts `updatePhoto`. -/
def updatePhoto (now : Int) (db? : Option Db) (id : Nat) (p : PhotoPatch) :
    Except String (OkResult × Db) :=
  match db? with
  | none => .error "Database not available"
  | some db =>
      .ok ({ success := true },
           { db with photosTable :=
               db.photosTable.map (fun x => if x.id == id then applyPhotoPatch now p x else x) })

/-- db.ts `deletePhoto`: `DELETE FROM photos WHERE id = ?`. -/
def deletePhoto (db? : Option Db) (id : Nat) : Except String (OkResult × Db) :=
  match db? with
  | none => .error "Database not available"
  | some db =>
      .ok ({ success := true },
           { db with photosTable := db.photosTable.filter (fun x => x.id != id) })

/-- Insertable columns of `essays`. -/
structure InsertEssay where
  title : String
  subtitle : Option String := none
  excerpt : Option String := none
  content : String
  coverImageUrl : Option String := none
  coverImageKey : Option String := none
  category : Option String := none
  tags : Option String := none
  readTime : Option Int := none
  featured : Option Bool := none
  published : Option Bool := none
  publishedAt : Option Int := none
deriving DecidableEq, Repr

/-- Row produced by `db.insert(essays).values(i)` with schema defaults. -/
def essayFromInsert (now : Int) (freshId : Nat) (i : InsertEssay) : Essay :=
  { id := freshId, title := i.title, subtitle := i.subtitle,
    excerpt := i.excerpt, content := i.content,
    coverImageUrl := i.coverImageUrl, coverImageKey := i.coverImageKey,
    category := i.category, tags := i.tags, readTime := i.readTime,
    featured := some (i.featured.getD false),
    published := some (i.published.getD false),
    publishedAt := i.publishedAt, createdAt := now, updatedAt := now }

/-- db.ts `createEssay`. -/
def createEssay (now : Int) (db? : Option Db) (i : InsertEssay) :
    Except String (InsertId × Db) :=
  match db? with
  | none => .error "Database not available"
  | some db =>
      let fid := nextId (db.essaysTable.map (fun e => e.id))
      .ok ({ id := fid },
           { db with essaysTable := db.essaysTable ++ [essayFromInsert now fid i] })

/-- `Partial<InsertEssay>` accepted by `updateEssay`. -/
structure EssayPatch where
  title : Option String := none
  subtitle : Option String := none
  excerpt : Option String := none
  content : Option String := none
  coverImageUrl : Option String := none
  coverImageKey : Option String := none
  category : Option String := none
  tags : Option String := none
  readTime : Option Int := none
  featured : Option Bool := none
  published : Option Bool := none
  publishedAt : Option Int := none
deriving DecidableEq, Repr

/-- drizzle `update(essays).set(patch)`. -/
def applyEssayPatch (now : Int) (p : EssayPatch) (e : Essay) : Essay :=
  { e with
    title := p.title.getD e.title,
    subtitle := match p.subtitle with | some v => some v | none => e.subtitle,
    excerpt := match p.excerpt with | some v => some v | none => e.excerpt,
    content := p.content.getD e.content,
    coverImageUrl := match p.coverImageUrl with | some v => some v | none => e.coverImageUrl,
    coverImageKey := match p.coverImageKey with | some v => some v | none => e.coverImageKey,
    category := match p.category with | some v => some v | none => e.category,
    tags := match p.tags with | some v => some v | none => e.tags,
    readTime := match p.readTime with | some v => some v | none => e.readTime,
    featured := match p.featured with | some v => some v | none => e.featured,
    published := match p.published with | some v => some v | none => e.published,
    publishedAt := match p.publishedAt with | some v => some v | none => e.publishedAt,
    updatedAt := now }

/-- db.ts `updateEssay`. -/
def updateEssay (now : Int) (db? : Option Db) (id : Nat) (p : EssayPatch) :
    Except String (OkResult × Db) :=
  match db? with
  | none => .error "Database not available"
  | some db =>
      .ok ({ success := true },
           { db with essaysTable :=
               db.essaysTable.map (fun e => if e.id == id then applyEssayPatch now p e else e) })

/-- db.ts `deleteEssay`: `DELETE FROM essays WHERE id = ?`. -/
def deleteEssay (db? : Option Db) (id : Nat) : Except String (OkResult × Db) :=
  match db? with
  | none => .error "Database not available"
  | some db =>
      .ok ({ success := true },
           { db with essaysTable := db.essaysTable.filter (fun e => e.id != id) })

/-- Insertable columns of `papers`. -/
structure InsertPaper where
  title : String
  authors : String
  abstract : Option String := none
  journal : Option String := none
  year : Option Int := none
  volume : Option String := none
  issue : Option String := none
  pages : Option String := none
  doi : Option String := none
  pdfUrl : Option String := none
  pdfKey : Option String := none
  category : Option String := none
  tags : Option String := none
  citations : Option Int := none
  featured : Option Bool := none
  published : Option Bool := none
  publishedAt : Option Int := none
deriving DecidableEq, Repr

/-- Row produced by `db.insert(papers).values(i)` with schema defaults. -/
def paperFromInsert (now : Int) (freshId : Nat) (i : InsertPaper) : Paper :=
  { id := freshId, title := i.title, authors := i.authors,
    abstract := i.abstract, journal := i.journal, year := i.year,
    volume := i.volume, issue := i.issue, pages := i.pages, doi := i.doi,
    pdfUrl := i.pdfUrl, pdfKey := i.pdfKey, category := i.category,
    tags := i.tags, citations := some (i.citations.getD 0),
    featured := some (i.featured.getD false),
    published := some (i.published.getD false),
    publishedAt := i.publishedAt, createdAt := now, updatedAt := now }

/-- db.ts `createPaper`. -/
def createPaper (now : Int) (db? : Option Db) (i : InsertPaper) :
    Except String (InsertId × Db) :=
  match db? with
  | none => .error "Database not available"
  | some db =>
      let fid := nextId (db.papersTable.map (fun p => p.id))
      .ok ({ id := fid },
           { db with papersTable := db.papersTable ++ [paperFromInsert now fid i] })

/-- `Partial<InsertPaper>` accepted by `updatePaper`. -/
structure PaperPatch where
  title : Option String := none
  authors : Option String := none
  abstract : Option String := none
  journal : Option String := none
  year : Option Int := none
  volume : Option String := none
  issue : Option String := none
  pages : Option String := none
  doi : Option String := none
  pdfUrl : Option String := none
  pdfKey : Option String := none
  category : Option String := none
  tags : Option String := none
  citations : Option Int := none
  featured : Option Bool := none
  published : Option Bool := none
  publishedAt : Option Int := none
deriving DecidableEq, Repr

/-- drizzle `update(papers).set(patch)`. -/
def applyPaperPatch (now : Int) (p : PaperPatch) (x : Paper) : Paper :=
  { x with
    title := p.title.getD x.title,
    authors := p.authors.getD x.authors,
    abstract := match p.abstract with | some v => some v | none => x.abstract,
    journal := match p.journal with | some v => some v | none => x.journal,
    year := match p.year with | some v => some v | none => x.year,
    volume := match p.volume with | some v => some v | none => x.volume,
    issue := match p.issue with | some v => some v | none => x.issue,
    pages := match p.pages with | some v => some v | none => x.pages,
    doi := match p.doi with | some v => some v | none => x.doi,
    pdfUrl := match p.pdfUrl with | some v => some v | none => x.pdfUrl,
    pdfKey := match p.pdfKey with | some v => some v | none => x.pdfKey,
    category := match p.category with | some v => some v | none => x.category,
    tags := match p.tags with | some v => some v | none => x.tags,
    citations := match p.citations with | some v => some v | none => x.citations,
    featured := match p.featured with | some v => some v | none => x.featured,
    published := match p.published with | some v => some v | none => x.published,
    publishedAt := match p.publishedAt with | some v => some v | none => x.publishedAt,
    updatedAt := now }

/-- db.ts `updatePaper`. -/
def updatePaper (now : Int) (db? : Option Db) (id : Nat) (p : PaperPatch) :
    Except String (OkResult × Db) :=
  match db? with
  | none => .error "Database not available"
  | some db =>
      .ok ({ success := true },
           { db with papersTable :=
               db.papersTable.map (fun x => if x.id == id then applyPaperPatch now p x else x) })

/-- db.ts `deletePaper`: `DELETE FROM papers WHERE id = ?`. -/
def deletePaper (db? : Option Db) (id : Nat) : Except String (OkResult × Db) :=
  match db? with
  | none => .error "Database not available"
  | some db =>
      .ok ({ success := true },
           { db with papersTable := db.papersTable.filter (fun x => x.id != id) })

/-! ### Site settings (server/db.ts) -/

/-- db.ts `getSetting`: `none` = no row / no database; `some v` = the row's
nullable `value` column. -/
def getSetting (db? : Option Db) (key : String) : Option (Option String) :=
  match db? with
  | none => none
  | some db => ((db.settingsTable.filter (fun s => s.key == key)).head?).map (fun s => s.value)

/-- db.ts `setSetting`: insert with `onDuplicateKeyUpdate` on the unique
`key` column — overwrite `value` when the key exists, append otherwise. -/
def setSetting (db? : Option Db) (key value : String) : Except String (OkResult × Db) :=
  match db? with
  | none => .error "Database not available"
  | some db =>
      if db.settingsTable.any (fun s => s.key == key) then
        .ok ({ success := true },
             { db with settingsTable :=
                 db.settingsTable.map (fun s =>
                   if s.key == key then { s with value := some value } else s) })
      else
        .ok ({ success := true },
             { db with settingsTable := db.settingsTable ++ [{ key := key, value := some value }] })

/-! ### Search (server/db.ts searchContent)

`searchContent` builds the pattern `` `%${query}%` `` by plain string
interpolation — LIKE metacharacters in the query are not escaped — and runs
`col LIKE pattern` under MySQL's default case-insensitive collation.
`likeChars` is MySQL LIKE over characters: `%` matches any sequence, `_`
exactly one character (the backslash escape is irrelevant here: the fixed
patterns contain no backslash-escape sequences). `col LIKE p` on a NULL cell
is NULL, hence false in a WHERE clause. -/

/-- Character-wise lowercase: the semantics of JS `toLowerCase()` and of the
case-folding a case-insensitive collation applies to the ASCII data involved
here (written as a structural map so it evaluates in the kernel). -/
def lowerStr (s : String) : String := String.mk (s.data.map Char.toLower)

/-- `%` matching: does the rest-of-pattern predicate `f` accept some suffix
of the string? -/
def likeStar (f : List Char → Bool) : List Char → Bool
  | [] => f []
  | c :: ss => f (c :: ss) || likeStar f ss

/-- MySQL LIKE pattern matching over characters. -/
def likeChars : List Char → List Char → Bool
  | [], s => s.isEmpty
  | '%' :: ps, s => likeStar (likeChars ps) s
  | '_' :: _, [] => false
  | '_' :: ps, _ :: ss => likeChars ps ss
  | _ :: _, [] => false
  | p :: ps, c :: ss => (p == c) && likeChars ps ss

/-- `col LIKE pattern` under a case-insensitive collation. -/
def sqlLike (pattern s : String) : Bool :=
  likeChars (lowerStr pattern).data (lowerStr s).data

/-- `col LIKE pattern` on a nullable column: NULL never matches. -/
def optLike (pattern : String) (s : Option String) : Bool :=
  match s with
  | none => false
  | some v => sqlLike pattern v

/-- The interpolated search term `` `%${query}%` `` of `searchContent`. -/
def searchTermOf (query : String) : String := "%" ++ query ++ "%"

/-- The `or(like(title), like(description), like(location), like(tags))`
predicate of the photos branch. -/
def photoSearchMatch (term : String) (p : Photo) : Bool :=
  sqlLike term p.title || optLike term p.description ||
    optLike term p.location || optLike term p.tags

/-- The essays branch predicate: `published = true` AND any of
title/subtitle/excerpt/tags LIKE-matches. -/
def essaySearchMatch (term : String) (e : Essay) : Bool :=
  e.published == some true &&
    (sqlLike term e.title || optLike term e.subtitle ||
      optLike term e.excerpt || optLike term e.tags)

/-- The papers branch predicate: `published = true` AND any of
title/abstract/authors/tags LIKE-matches. -/
def paperSearchMatch (term : String) (p : Paper) : Bool :=
  p.published == some true &&
    (sqlLike term p.title || optLike term p.abstract ||
      sqlLike term p.authors || optLike term p.tags)

/-- The `type` enum of `search.query` (`'photos' | 'essays' | 'papers'`). -/
inductive SearchType where
  | photos
  | essays
  | papers
deriving DecidableEq, Repr

/-- The `{ photos, essays, papers }` result object of `searchContent`: all
three keys are always present by construction of this record type. -/
structure SearchResults where
  photos : List Photo := []
  essays : List Essay := []
  papers : List Paper := []
deriving DecidableEq, Repr

/-- `ORDER BY createdAt DESC` of the photos search branch. -/
def photoCreatedDesc (a b : Photo) : Bool := b.createdAt ≤ a.createdAt

/-- db.ts `searchContent`: each branch runs when `!type || type === '...'`,
filters, orders, and takes `limit(20)`; the other buckets stay `[]`. -/
def searchContent (db? : Option Db) (query : String) (type? : Option SearchType) :
    SearchResults :=
  match db? with
  | none => {}
  | some db =>
      let term := searchTermOf query
      { photos :=
          if type?.isNone || type? == some .photos then
            (sortBy photoCreatedDesc (db.photosTable.filter (photoSearchMatch term))).take 20
          else [],
        essays :=
          if type?.isNone || type? == some .essays then
            (sortBy (fun a b => optIntDesc a.publishedAt b.publishedAt)
              (db.essaysTable.filter (essaySearchMatch term))).take 20
          else [],
        papers :=
          if type?.isNone || type? == some .papers then
            (sortBy (fun a b => optIntDesc a.year b.year)
              (db.papersTable.filter (paperSearchMatch term))).take 20
          else [] }

/-! ### HTTP errors (shared/_core/errors.ts) -/

/-- `HttpError` carries a status code and a message. -/
structure HttpError where
  statusCode : Nat
  message : String
deriving DecidableEq, Repr

/-- errors.ts `BadRequestError`. -/
def BadRequestError (msg : String) : HttpError := { statusCode := 400, message := msg }

/-- errors.ts `UnauthorizedError`. -/
def UnauthorizedError (msg : String) : HttpError := { statusCode := 401, message := msg }

/-- errors.ts `ForbiddenError`. -/
def ForbiddenError (msg : String) : HttpError := { statusCode := 403, message := msg }

/-- errors.ts hardcoded client-matching string for "please log in". -/
def UNAUTHED_ERR_MSG : String := "Please login (10001)"

/-- errors.ts hardcoded client-matching string for "not an admin". -/
def NOT_ADMIN_ERR_MSG : String := "You do not have required permission (10002)"

/-! ### Session tokens (server/_core/auth.ts)

The JWT is embedded under the standard perfect-cryptography assumption: an
HS256 signature verifies against exactly the secret that produced it, so a
well-formed token is modelled as the signing secret paired with its payload,
and `jwtVerify` succeeds iff the secrets coincide and the token is not
expired; any structurally malformed token makes `jwtVerify` throw, which the
source catches and turns into `null`. Claim values are arbitrary JSON, so the
three claims are optional typed JSON values checked by the source's
`typeof` guards. -/

/-- A JSON claim value as found in a decoded JWT payload. -/
inductive JsonVal where
  | num (n : Int)
  | str (s : String)
  | boolean (b : Bool)
  | null
deriving DecidableEq, Repr

/-- Decoded JWT payload: the three custom claims (possibly absent or of the
wrong type) plus the `exp` registered claim in epoch seconds. -/
structure JwtPayload where
  userId : Option JsonVal := none
  email : Option JsonVal := none
  role : Option JsonVal := none
  exp : Int
deriving DecidableEq, Repr

/-- A session token as received from cookie or bearer header. -/
inductive Token where
  /-- Not a structurally valid compact JWS: `jwtVerify` throws, caught to `null`. -/
  | malformed (raw : String)
  /-- A compact JWS signed (HS256) with `secret` over `payload`. -/
  | signed (secret : String) (payload : JwtPayload)
deriving DecidableEq, Repr

/-- auth.ts `SessionPayload`: `{ userId, email, role }`. -/
structure SessionPayload where
  userId : Int
  email : String
  role : String
deriving DecidableEq, Repr

/-- auth.ts `createSessionToken`: signs `{userId, email, role}` with the
configured secret and expiration `Math.floor((Date.now() + expiresInMs) / 1000)`,
`expiresInMs` defaulting to `config.auth.sessionMaxAge`. -/
def createSessionToken (cfgSecret : String) (cfgSessionMaxAge nowMs : Int)
    (p : SessionPayload) (expiresInMs : Option Int) : Token :=
  .signed cfgSecret
    { userId := some (.num p.userId), email := some (.str p.email),
      role := some (.str p.role),
      exp := (nowMs + expiresInMs.getD cfgSessionMaxAge) / 1000 }

/-- The source's structural guard: `typeof userId === "number" &&
typeof email === "string" && typeof role === "string"`. -/
def payloadWellTyped (p : JwtPayload) : Bool :=
  match p.userId, p.email, p.role with
  | some (.num _), some (.str _), some (.str _) => true
  | _, _, _ => false

/-- auth.ts `verifySessionToken`: `null` for an absent token; `jwtVerify`
checks the HS256 signature against the configured secret and the `exp` claim
against the current time (expired when `exp ≤ now`), throwing on malformed
input or mismatch — all caught to `null`; then the `typeof` guards reject a
wrongly-shaped payload, else the claims are returned. -/
def verifySessionToken (cfgSecret : String) (nowSec : Int) (token : Option Token) :
    Option SessionPayload :=
  match token with
  | none => none
  | some (.malformed _) => none
  | some (.signed secret payload) =>
      if secret ≠ cfgSecret then none
      else if payload.exp ≤ nowSec then none
      else
        match payload.userId, payload.email, payload.role with
        | some (.num uid), some (.str em), some (.str rl) =>
            some { userId := uid, email := em, role := rl }
        | _, _, _ => none

/-! ### User upsert (server/db.ts upsertUser)

`InsertUser`'s text fields distinguish omitted (`none`) from explicit null
(`some none`) because `upsertUser` checks `value === undefined` before
normalizing with `value ?? null`. `onDuplicateKeyUpdate` applies the update
set to the row whose unique `openId` collides, otherwise inserts the values
row; the users-table write on an unavailable database warns and returns
without throwing. -/

/-- drizzle `InsertUser` as consumed by `upsertUser`. -/
structure InsertUser where
  openId : String
  name : Option (Option String) := none
  email : Option (Option String) := none
  loginMethod : Option (Option String) := none
  role : Option Role := none
  lastSignedIn : Option Int := none
deriving DecidableEq, Repr

/-- The source's admin-email test: `user.email && config.auth.adminEmail &&
user.email.toLowerCase() === config.auth.adminEmail.toLowerCase()` (truthiness
rules out absent, null and empty strings). -/
def emailMatchesAdmin (cfgAdminEmail : String) (email : Option (Option String)) : Bool :=
  match email with
  | some (some e) => e ≠ "" && cfgAdminEmail ≠ "" && lowerStr e == lowerStr cfgAdminEmail
  | _ => false

/-- The role entry `upsertUser` places into both `values` and `updateSet`:
an explicit `user.role` wins; otherwise `admin` iff the email matches the
configured admin email; otherwise no role entry at all. -/
def upsertRole (cfgAdminEmail : String) (u : InsertUser) : Option Role :=
  match u.role with
  | some r => some r
  | none => if emailMatchesAdmin cfgAdminEmail u.email then some .admin else none

/-- Whether `updateSet` would be empty (then `upsertUser` adds a
`lastSignedIn: new Date()` entry so the UPDATE clause is non-trivial). -/
def upsertSetEmpty (cfgAdminEmail : String) (u : InsertUser) : Bool :=
  u.name.isNone && u.email.isNone && u.loginMethod.isNone &&
    u.lastSignedIn.isNone && (upsertRole cfgAdminEmail u).isNone

/-- `onDuplicateKeyUpdate({ set: updateSet })` applied to the existing row. -/
def applyUpsertSet (cfgAdminEmail : String) (now : Int) (u : InsertUser) (old : User) : User :=
  { old with
    name := match u.name with | some v => v | none => old.name,
    email := match u.email with | some v => v | none => old.email,
    loginMethod := match u.loginMethod with | some v => v | none => old.loginMethod,
    role := (upsertRole cfgAdminEmail u).getD old.role,
    lastSignedIn :=
      match u.lastSignedIn with
      | some t => t
      | none => if upsertSetEmpty cfgAdminEmail u then now else old.lastSignedIn,
    updatedAt := now }

/-- The `values` row inserted when no `openId` collision exists; omitted
columns fall back to schema defaults (`role` defaults to `user`), and
`values.lastSignedIn` is forced to now when falsy. -/
def upsertInsertRow (cfgAdminEmail : String) (now : Int) (freshId : Nat)
    (u : InsertUser) : User :=
  { id := freshId, openId := u.openId,
    name := u.name.getD none, email := u.email.getD none,
    loginMethod := u.loginMethod.getD none,
    role := (upsertRole cfgAdminEmail u).getD .user,
    createdAt := now, updatedAt := now,
    lastSignedIn := u.lastSignedIn.getD now }

/-- db.ts `upsertUser`: throws on a falsy `openId`; on an unavailable
database it warns and returns (no error); otherwise inserts or updates by
the unique `openId` key. -/
def upsertUser (cfgAdminEmail : String) (now : Int) (db? : Option Db)
    (u : InsertUser) : Except String (Option Db) :=
  if u.openId = "" then .error "User openId is required for upsert"
  else
    match db? with
    | none => .ok none
    | some db =>
        if db.usersTable.any (fun w => w.openId == u.openId) then
          let updated := db.usersTable.map (fun w =>
            if w.openId == u.openId then applyUpsertSet cfgAdminEmail now u w else w)
          .ok (some { db with usersTable := updated })
        else
          let fid := nextId (db.usersTable.map (fun w => w.id))
          .ok (some { db with usersTable :=
                        db.usersTable ++ [upsertInsertRow cfgAdminEmail now fid u] })

/-! ### Authorization gate (tRPC procedure levels)

The request context carries the session-resolved user (`null` for an
anonymous caller). -/

/-- server/_core/context.ts `TrpcContext` (the slice the gate reads). -/
structure TrpcContext where
  user : Option User := none
deriving DecidableEq, Repr

/-- Modelled from the spec: the file `server/_core/trpc.ts` defining
`publicProcedure`/`protectedProcedure`/`adminProcedure` is not under src/
(only its callers in routers.ts and the vitest suite are). Per spec §4.2 and
§7, the admin level requires a resolvable session AND `role == admin`,
throwing Unauthorized (401) with the hardcoded "please log in" message when
there is no session and Forbidden (403) with the "not an admin" message when
the session's role is insufficient; on success the context user is passed on. -/
def adminGate (ctx : TrpcContext) : Except HttpError User :=
  match ctx.user with
  | none => .error (UnauthorizedError UNAUTHED_ERR_MSG)
  | some u => if u.role = .admin then .ok u else .error (ForbiddenError NOT_ADMIN_ERR_MSG)

/-- Modelled from the spec: an admin-level procedure runs its middleware
before the resolver, so the repository handler executes only when `adminGate`
succeeds. The boolean records whether the repository was reached. -/
def adminCall (ctx : TrpcContext) (handler : Option Db → α) (db? : Option Db) :
    Except HttpError α × Bool :=
  match adminGate ctx with
  | .error e => (.error e, false)
  | .ok _ => (.ok (handler db?), true)

/-! ### Public get procedures and upload procedures (server/routers.ts) -/

/-- routers.ts `essays.get`: a public procedure — the context is never
consulted and no published filter is applied. -/
def essaysGet (_ctx : TrpcContext) (db? : Option Db) (id : Nat) : Option Essay :=
  getEssayById db? id

/-- routers.ts `papers.get`: public, unfiltered. -/
def papersGet (_ctx : TrpcContext) (db? : Option Db) (id : Nat) : Option Paper :=
  getPaperById db? id

/-- Input of `upload.image` after zod parsing: zod checks only that the three
fields are strings, which this record type already guarantees. -/
structure UploadImageInput where
  filename : String
  contentType : String
  base64Data : String
deriving DecidableEq, Repr

/-- Observable outcome of the `upload.image` resolver. -/
inductive UploadOutcome where
  /-- `throw new Error("Storage service is not configured")`. -/
  | notConfigured
  /-- `storagePut(fileKey, buffer, contentType)` was invoked: the storage
  bridge was reached with this key and declared content type. -/
  | stored (fileKey : String) (contentType : String)
deriving DecidableEq, Repr

/-- routers.ts `upload.image` resolver body (behind `adminProcedure`): checks
only `isStorageConfigured()`, then builds `` `images/${nanoid()}-${filename}` ``
and calls `storagePut` with the caller's declared `contentType`. No MIME-type
or size check appears between zod parsing and the bridge call; `nanoidVal`
stands for the generated random id. -/
def uploadImage (storageConfigured : Bool) (nanoidVal : String)
    (input : UploadImageInput) : UploadOutcome :=
  if !storageConfigured then .notConfigured
  else .stored ("images/" ++ nanoidVal ++ "-" ++ input.filename) input.contentType

/-- routers.ts `upload.pdf` resolver body: same shape, fixed
`application/pdf` content type, `pdfs/` key prefix, and likewise no size
check. -/
def uploadPdf (storageConfigured : Bool) (nanoidVal : String)
    (filename _base64Data : String) : UploadOutcome :=
  if !storageConfigured then .notConfigured
  else .stored ("pdfs/" ++ nanoidVal ++ "-" ++ filename) "application/pdf"

/-! ### Sample rows used by witness theorems -/

/-- A published sample essay. -/
def pubEssay : Essay :=
  { id := 1, title := "The Art of Seeing", content := "body",
    published := some true, publishedAt := some 100, createdAt := 10 }

/-- A draft sample essay (`published = false`). -/
def draftEssay : Essay :=
  { id := 2, title := "Draft", content := "secret draft body",
    published := some false, createdAt := 20 }

/-- A published sample paper. -/
def pubPaper : Paper :=
  { id := 1, title := "Visual Rhetoric", authors := "Orpheus D.",
    year := some 2024, published := some true, createdAt := 10 }

/-- A draft sample paper. -/
def draftPaper : Paper :=
  { id := 2, title := "Draft Paper", authors := "Orpheus D.",
    year := some 2025, published := some false, createdAt := 20 }

/-- A database holding one published and one draft essay/paper each. -/
def sampleDb : Db :=
  { essaysTable := [pubEssay, draftEssay], papersTable := [pubPaper, draftPaper] }

/-- An existing user row that already holds the admin role, although its
email no longer matches the configured admin email used below. -/
def staleAdmin : User :=
  { id := 1, openId := "op1", email := some "old@example.com", role := .admin }

/-- A store whose only user is `staleAdmin`. -/
def dbStaleAdmin : Db := { usersTable := [staleAdmin] }

/-- A login-style upsert for `staleAdmin`: same openId and email, a fresh
last-signed-in timestamp, no explicit role. -/
def upsertStale : InsertUser :=
  { openId := "op1", email := some (some "old@example.com"), lastSignedIn := some 500 }

/-- A new-user upsert whose email matches the configured admin email. -/
def newAdminIns : InsertUser :=
  { openId := "op2", email := some (some "Admin@X.com") }

/-- The row `upsertUser` produces from `staleAdmin` under `upsertStale`
(configured admin email `"new@example.com"`, now = 900): only the email,
last-signed-in and updated-at columns are written — the admin role stays. -/
def staleAdminAfter : User :=
  { id := 1, openId := "op1", email := some "old@example.com", role := .admin,
    updatedAt := 900, lastSignedIn := 500 }

/-- A session-holding user without the admin role. -/
def plainUser : User := { id := 3, openId := "op3", role := .user }

/-- A session-holding admin user. -/
def adminUser : User := { id := 4, openId := "op4", role := .admin }

/-! ### Membership lemmas for the embedded query pipeline -/

theorem mem_insertSorted {le : α → α → Bool} {a x : α} {l : List α} :
    x ∈ insertSorted le a l ↔ x = a ∨ x ∈ l := by
  induction l with
  | nil => simp [insertSorted]
  | cons b t ih =>
      simp only [insertSorted]
      split
      · simp
      · simp only [List.mem_cons, ih]
        tauto

theorem mem_sortBy {le : α → α → Bool} {x : α} {l : List α} :
    x ∈ sortBy le l ↔ x ∈ l := by
  induction l with
  | nil => simp [sortBy]
  | cons a t ih => simp [sortBy, mem_insertSorted, ih]

theorem mem_applyLimit {limit : Option Nat} {x : α} {l : List α}
    (h : x ∈ applyLimit limit l) : x ∈ l := by
  unfold applyLimit at h
  split at h
  · exact h
  · split at h
    · exact h
    · exact List.mem_of_mem_take h

/-- Claim C1: For every caller-supplied filter combination (including an explicit
`published := some false`), the public `essays.list` and `papers.list`
procedures force `published = true` onto the repository query, so no returned
item ever has `published = false`; the admin-only `listAll` procedures pass
the caller's filters through to `getAllEssays`/`getAllPapers` unchanged. -/
theorem public_list_forces_published (db? : Option Db) (input : Option ContentListOptions) :
    (∀ e ∈ essaysList db? input, e.published = some true) ∧
    (∀ p ∈ papersList db? input, p.published = some true) ∧
    essaysListAll db? input = getAllEssays db? input ∧
    papersListAll db? input = getAllPapers db? input := by
  refine ⟨?_, ?_, rfl, rfl⟩
  · intro e he
    unfold essaysList getAllEssays at he
    match db? with
    | none => cases he
    | some db =>
        simp only at he
        have hm := mem_applyLimit he
        have hf := (mem_sortBy.mp hm)
        have hc := (List.mem_filter.mp hf).2
        unfold essayCond at hc
        simp only [Option.getD_some, Bool.and_eq_true, beq_iff_eq] at hc
        exact hc.1.1
  · intro p hp
    unfold papersList getAllPapers at hp
    match db? with
    | none => cases hp
    | some db =>
        simp only at hp
        have hm := mem_applyLimit hp
        have hf := (mem_sortBy.mp hm)
        have hc := (List.mem_filter.mp hf).2
        unfold paperCond at hc
        simp only [Option.getD_some, Bool.and_eq_true, beq_iff_eq] at hc
        exact hc.1.1

/-- Witness for C1: on `sampleDb` with the adversarial filter
`published := some false`, the public list still contains only
`published = some true` rows (here: `pubEssay` is returned and satisfies the
conclusion), and `listAll` equals the unforced repository call. -/
theorem public_list_forces_published_witness :
    (pubEssay ∈ essaysList (some sampleDb) (some { published := some false }) →
      pubEssay.published = some true) ∧
    essaysListAll (some sampleDb) none = getAllEssays (some sampleDb) none := by
  exact ⟨(public_list_forces_published (some sampleDb)
            (some { published := some false })).1 pubEssay,
         (public_list_forces_published (some sampleDb) none).2.2.1⟩

/-! ### LIKE wildcard lemmas -/

theorem likeStar_end (s : List Char) : likeStar (likeChars []) s = true := by
  induction s with
  | nil => rfl
  | cons c ss ih => rw [likeStar, ih, Bool.or_true]

theorem likeChars_single_percent (s : List Char) : likeChars ['%'] s = true := by
  rw [likeChars]
  exact likeStar_end s

theorem likeChars_double_percent (s : List Char) : likeChars ['%', '%'] s = true := by
  rw [likeChars]
  cases s with
  | nil => exact likeChars_single_percent []
  | cons c ss => rw [likeStar, likeChars_single_percent, Bool.true_or]

theorem likeChars_triple_percent (s : List Char) : likeChars ['%', '%', '%'] s = true := by
  rw [likeChars]
  cases s with
  | nil => exact likeChars_double_percent []
  | cons c ss => rw [likeStar, likeChars_double_percent, Bool.true_or]

theorem sqlLike_all_percent (t : String) : sqlLike (searchTermOf "%") t = true := by
  show likeChars (lowerStr (searchTermOf "%")).data (lowerStr t).data = true
  rw [show (lowerStr (searchTermOf "%")).data = ['%', '%', '%'] from rfl]
  exact likeChars_triple_percent _

theorem likeChars_percent_underscore (c : Char) (ss : List Char) :
    likeChars ['%', '_', '%'] (c :: ss) = true := by
  rw [likeChars, likeStar]
  have h : likeChars ['_', '%'] (c :: ss) = true := by
    rw [likeChars]
    exact likeChars_single_percent ss
  rw [h, Bool.true_or]

theorem sqlLike_underscore_nonempty (t : String) (h : t ≠ "") :
    sqlLike (searchTermOf "_") t = true := by
  obtain ⟨d⟩ := t
  match d with
  | [] => exact absurd rfl h
  | c :: ds =>
      show likeChars (lowerStr (searchTermOf "_")).data (lowerStr ⟨c :: ds⟩).data = true
      rw [show (lowerStr (searchTermOf "_")).data = ['%', '_', '%'] from rfl]
      show likeChars ['%', '_', '%'] (c.toLower :: ds.map Char.toLower) = true
      exact likeChars_percent_underscore _ _

/-! ### Filter and head lemmas for by-id lookups and deletes -/

theorem filter_head_of_mem {α : Type} (p : α → Bool) {l : List α} {a : α}
    (ha : a ∈ l) (hp : p a = true) (huniq : ∀ b ∈ l, p b = true → b = a) :
    (l.filter p).head? = some a := by
  induction l with
  | nil => cases ha
  | cons x t ih =>
      rw [List.filter_cons]
      cases hx : p x with
      | true =>
          have hxa : x = a := huniq x (List.mem_cons_self x t) hx
          simp [hxa]
      | false =>
          rcases List.mem_cons.mp ha with hxa | hat
          · rw [← hxa] at hx
            rw [hp] at hx
            cases hx
          · simp only [Bool.false_eq_true, if_false]
            exact ih hat (fun b hb hpb => huniq b (List.mem_cons_of_mem x hb) hpb)

theorem filter_bne_then_beq {α : Type} (key : α → Nat) (l : List α) (i : Nat) :
    (l.filter (fun x => key x != i)).filter (fun x => key x == i) = [] := by
  rw [List.filter_filter]
  have h : ∀ x : α, ((key x == i) && (key x != i)) = false := by
    intro x
    cases hk : key x == i <;> simp [bne, hk]
  simp only [h]
  exact List.filter_false l

theorem filter_bne_idem {α : Type} (key : α → Nat) (l : List α) (i : Nat) :
    (l.filter (fun x => key x != i)).filter (fun x => key x != i) =
      l.filter (fun x => key x != i) := by
  rw [List.filter_filter]
  have h : ∀ x : α, ((key x != i) && (key x != i)) = (key x != i) := by
    intro x
    cases hk : key x != i <;> simp [hk]
  simp only [h]

/-- Claim C2 counterexample: an image upload declaring `contentType:
"text/plain"` is not rejected at the API boundary — with storage configured
it reaches the storage bridge (`storagePut` is invoked with the caller's
content type), contradicting the claim that such uploads fail with
BadRequest before the bridge. -/
theorem upload_image_reaches_bridge_cex :
    uploadImage true "k7f2"
        { filename := "notes.txt", contentType := "text/plain",
          base64Data := "aGVsbG8=" } =
      .stored "images/k7f2-notes.txt" "text/plain" := rfl

/-- Claim C2 amended: the `upload.image` procedure performs no MIME-type and
no size validation at the API boundary: whatever the declared `contentType`
and however large the payload, once past the admin gate the only check is
that storage is configured, and the payload is then forwarded to the storage
bridge under the caller's declared content type (the image-MIME/10 MB checks
exist only in the admin client UI, not in the server). -/
theorem upload_image_no_boundary_validation (nanoidVal : String) (input : UploadImageInput) :
    uploadImage true nanoidVal input =
      .stored ("images/" ++ nanoidVal ++ "-" ++ input.filename) input.contentType ∧
    uploadImage false nanoidVal input = .notConfigured := ⟨rfl, rfl⟩

/-- Claim C7: with the persistence backend unavailable (`getDb` yields no
handle), every repository read operation — the lists, the by-id gets, the
search and `getSetting` — returns an empty or absent result without
throwing, and every repository write operation — the creates, updates,
deletes and `setSetting` — throws the generic "Database not available"
error. -/
theorem repo_unavailable_semantics (now : Int)
    (po : Option PhotoListOptions) (eo po2 : Option ContentListOptions)
    (i : Nat) (q k v : String) (st : Option SearchType)
    (ip : InsertPhoto) (ie : InsertEssay) (ir : InsertPaper)
    (pp : PhotoPatch) (ep : EssayPatch) (rp : PaperPatch) :
    getAllPhotos none po = [] ∧ getPhotoById none i = none ∧
    getAllEssays none eo = [] ∧ getEssayById none i = none ∧
    getAllPapers none po2 = [] ∧ getPaperById none i = none ∧
    searchContent none q st = {} ∧ getSetting none k = none ∧
    createPhoto now none ip = .error "Database not available" ∧
    updatePhoto now none i pp = .error "Database not available" ∧
    deletePhoto none i = .error "Database not available" ∧
    createEssay now none ie = .error "Database not available" ∧
    updateEssay now none i ep = .error "Database not available" ∧
    deleteEssay none i = .error "Database not available" ∧
    createPaper now none ir = .error "Database not available" ∧
    updatePaper now none i rp = .error "Database not available" ∧
    deletePaper none i = .error "Database not available" ∧
    setSetting none k v = .error "Database not available" :=
  ⟨rfl, rfl, rfl, rfl, rfl, rfl, rfl, rfl, rfl, rfl, rfl, rfl, rfl, rfl, rfl, rfl, rfl, rfl⟩

/-- Claim C8: for every id, after a successful `delete(id)` on any of the
three content entities, a subsequent `getById(id)` on the resulting store
returns absent, and calling `delete(id)` again on the same (now nonexistent)
id succeeds with `{ success: true }` without error — delete is an
unconditional, idempotent hard delete. -/
theorem delete_idempotent_absent (db? : Option Db) (i : Nat) :
    (∀ r db2, deleteEssay db? i = .ok (r, db2) →
      getEssayById (some db2) i = none ∧
      deleteEssay (some db2) i = .ok ({ success := true }, db2)) ∧
    (∀ r db2, deletePhoto db? i = .ok (r, db2) →
      getPhotoById (some db2) i = none ∧
      deletePhoto (some db2) i = .ok ({ success := true }, db2)) ∧
    (∀ r db2, deletePaper db? i = .ok (r, db2) →
      getPaperById (some db2) i = none ∧
      deletePaper (some db2) i = .ok ({ success := true }, db2)) := by
  refine ⟨?_, ?_, ?_⟩
  · intro r db2 h
    match db? with
    | none => simp [deleteEssay] at h
    | some db =>
        simp only [deleteEssay, Except.ok.injEq, Prod.mk.injEq] at h
        obtain ⟨-, hdb⟩ := h
        subst hdb
        refine ⟨?_, ?_⟩
        · simp only [getEssayById, filter_bne_then_beq (fun e : Essay => e.id), List.head?]
        · simp only [deleteEssay, filter_bne_idem (fun e : Essay => e.id)]
  · intro r db2 h
    match db? with
    | none => simp [deletePhoto] at h
    | some db =>
        simp only [deletePhoto, Except.ok.injEq, Prod.mk.injEq] at h
        obtain ⟨-, hdb⟩ := h
        subst hdb
        refine ⟨?_, ?_⟩
        · simp only [getPhotoById, filter_bne_then_beq (fun p : Photo => p.id), List.head?]
        · simp only [deletePhoto, filter_bne_idem (fun p : Photo => p.id)]
  · intro r db2 h
    match db? with
    | none => simp [deletePaper] at h
    | some db =>
        simp only [deletePaper, Except.ok.injEq, Prod.mk.injEq] at h
        obtain ⟨-, hdb⟩ := h
        subst hdb
        refine ⟨?_, ?_⟩
        · simp only [getPaperById, filter_bne_then_beq (fun p : Paper => p.id), List.head?]
        · simp only [deletePaper, filter_bne_idem (fun p : Paper => p.id)]

/-- Witness for C8: deleting the draft essay (id 2) from `sampleDb` makes a
subsequent `getEssayById 2` absent, and deleting id 2 again succeeds. -/
theorem delete_idempotent_absent_witness :
    getEssayById (some { sampleDb with essaysTable := [pubEssay] }) 2 = none ∧
    deleteEssay (some { sampleDb with essaysTable := [pubEssay] }) 2 =
      .ok ({ success := true }, { sampleDb with essaysTable := [pubEssay] }) :=
  (delete_idempotent_absent (some sampleDb) 2).1 { success := true }
    { sampleDb with essaysTable := [pubEssay] } rfl

/-- Claim C9: the public get-by-id procedures apply no published filter: for
every stored essay or paper (in particular drafts with `published = false`),
`essays.get` / `papers.get` return the complete record — body content
included — to any caller, authenticated or not, that supplies its id. -/
theorem public_get_returns_drafts (ctx : TrpcContext) (db : Db) :
    (∀ e ∈ db.essaysTable, (∀ b ∈ db.essaysTable, b.id = e.id → b = e) →
      essaysGet ctx (some db) e.id = some e) ∧
    (∀ p ∈ db.papersTable, (∀ b ∈ db.papersTable, b.id = p.id → b = p) →
      papersGet ctx (some db) p.id = some p) := by
  constructor
  · intro e he hu
    simp only [essaysGet, getEssayById]
    exact filter_head_of_mem _ he (by simp)
      (fun b hb hpb => hu b hb (by simpa using hpb))
  · intro p hp hu
    simp only [papersGet, getPaperById]
    exact filter_head_of_mem _ hp (by simp)
      (fun b hb hpb => hu b hb (by simpa using hpb))

/-- Witness for C9: the anonymous caller retrieves the draft essay and draft
paper of `sampleDb` (ids 2) in full. -/
theorem public_get_returns_drafts_witness :
    essaysGet { user := none } (some sampleDb) draftEssay.id = some draftEssay ∧
    papersGet { user := none } (some sampleDb) draftPaper.id = some draftPaper :=
  ⟨(public_get_returns_drafts { user := none } sampleDb).1 draftEssay
      (by decide) (by decide),
   (public_get_returns_drafts { user := none } sampleDb).2 draftPaper
      (by decide) (by decide)⟩

/-- Claim C10: `searchContent` interpolates the caller's query between `%`
anchors without escaping LIKE metacharacters, so queries containing `%` or
`_` are not literal substring checks: the query `"%"` produces the pattern
`"%%%"`, which LIKE-matches every string (hence every searchable row passes
its branch predicate, for essays/papers subject only to the published
restriction), and the query `"_"` produces `"%_%"`, which matches exactly
the nonempty strings — any single character included. -/
theorem searchContent_like_wildcards :
    searchTermOf "%" = "%%%" ∧
    (∀ t : String, sqlLike (searchTermOf "%") t = true) ∧
    (∀ p : Photo, photoSearchMatch (searchTermOf "%") p = true) ∧
    (∀ e : Essay, e.published = some true → essaySearchMatch (searchTermOf "%") e = true) ∧
    (∀ p : Paper, p.published = some true → paperSearchMatch (searchTermOf "%") p = true) ∧
    (∀ t : String, t ≠ "" → sqlLike (searchTermOf "_") t = true) ∧
    sqlLike (searchTermOf "_") "" = false ∧
    sqlLike (searchTermOf "%") "plain title with no percent" = true := by
  refine ⟨rfl, sqlLike_all_percent, ?_, ?_, ?_, sqlLike_underscore_nonempty, by decide,
    sqlLike_all_percent _⟩
  · intro p
    simp [photoSearchMatch, sqlLike_all_percent]
  · intro e he
    simp [essaySearchMatch, he, sqlLike_all_percent]
  · intro p hp
    simp [paperSearchMatch, hp, sqlLike_all_percent]

/-- Witness for C10: the published sample essay, whose fields contain no
percent sign, satisfies the essays search predicate for the query `"%"`,
and the single-character string `"a"`, containing no underscore, matches
the query `"_"`. -/
theorem searchContent_like_wildcards_witness :
    essaySearchMatch (searchTermOf "%") pubEssay = true ∧
    sqlLike (searchTermOf "_") "a" = true :=
  ⟨searchContent_like_wildcards.2.2.2.1 pubEssay rfl,
   searchContent_like_wildcards.2.2.2.2.2.1 "a" (by decide)⟩

/-- Claim C3 counterexample: an upsert for an existing user row that already
holds the admin role, carrying an email that does not match the configured
admin email and no explicit role, completes with the row still holding
`role = admin` — so after a completed upsert the stored role is not
equivalent to "email matches the configured admin email": the claimed "iff"
fails in the only-if direction (the upsert never demotes). -/
theorem upsertUser_role_iff_cex :
    upsertUser "new@example.com" 900 (some dbStaleAdmin) upsertStale =
      .ok (some { usersTable := [staleAdminAfter] }) ∧
    staleAdminAfter.role = .admin ∧
    emailMatchesAdmin "new@example.com" (some (some "old@example.com")) = false :=
  ⟨rfl, rfl, rfl⟩

/-- Claim C3 amended: `upsertUser` only ever adds a role entry when the
caller passes one explicitly or the email matches the configured admin
email; it never demotes. Hence for a user newly created by an upsert that
passes no explicit role, the stored role is `admin` iff the email matches
the configured admin email at the time of the upsert; for an existing row
the updated role is `admin` iff the email matches or the row was already
admin — a non-matching user can therefore retain a previously granted admin
role. -/
theorem upsertUser_role_sync (cfg : String) (now : Int) (db : Db) (u : InsertUser)
    (hopen : ¬ u.openId = "")
    (hfresh : db.usersTable.any (fun w => w.openId == u.openId) = false)
    (hrole : u.role = none) :
    upsertUser cfg now (some db) u =
      .ok (some { db with usersTable := db.usersTable ++
            [upsertInsertRow cfg now (nextId (db.usersTable.map (fun w => w.id))) u] }) ∧
    ((upsertInsertRow cfg now (nextId (db.usersTable.map (fun w => w.id))) u).role = .admin ↔
      emailMatchesAdmin cfg u.email = true) ∧
    (∀ old : User, ((applyUpsertSet cfg now u old).role = .admin ↔
      (emailMatchesAdmin cfg u.email = true ∨ old.role = .admin))) := by
  refine ⟨?_, ?_, ?_⟩
  · simp [upsertUser, hopen, hfresh]
  · simp only [upsertInsertRow, upsertRole, hrole]
    cases hm : emailMatchesAdmin cfg u.email <;> simp [hm]
  · intro old
    simp only [applyUpsertSet, upsertRole, hrole]
    cases hm : emailMatchesAdmin cfg u.email <;> simp [hm]

/-- Witness for C3: upserting a brand-new user whose email matches the
configured admin email (case-insensitively) stores the row with
`role = admin`, and the iff from the amended theorem holds at this input. -/
theorem upsertUser_role_sync_witness :
    upsertUser "admin@x.com" 5 (some {}) newAdminIns =
      .ok (some { usersTable := [upsertInsertRow "admin@x.com" 5 1 newAdminIns] }) ∧
    ((upsertInsertRow "admin@x.com" 5 1 newAdminIns).role = .admin ↔
      emailMatchesAdmin "admin@x.com" newAdminIns.email = true) := by
  have h := upsertUser_role_sync "admin@x.com" 5 {} newAdminIns (by decide) rfl rfl
  exact ⟨h.1, h.2.1⟩

/-- Claim C4: every admin-level procedure call is gated before any
repository access: with no resolvable session the call fails with the
Unauthorized error (status 401) and the handler never runs; with a session
whose role is not `admin` it fails with the Forbidden error (status 403) and
the handler never runs; with an admin session the handler runs against the
store. -/
theorem admin_gate_levels {α : Type} (ctx : TrpcContext) (handler : Option Db → α)
    (db? : Option Db) :
    (ctx.user = none →
      adminCall ctx handler db? = (.error (UnauthorizedError UNAUTHED_ERR_MSG), false)) ∧
    (∀ u, ctx.user = some u → ¬ u.role = .admin →
      adminCall ctx handler db? = (.error (ForbiddenError NOT_ADMIN_ERR_MSG), false)) ∧
    (∀ u, ctx.user = some u → u.role = .admin →
      adminCall ctx handler db? = (.ok (handler db?), true)) ∧
    (UnauthorizedError UNAUTHED_ERR_MSG).statusCode = 401 ∧
    (ForbiddenError NOT_ADMIN_ERR_MSG).statusCode = 403 := by
  refine ⟨?_, ?_, ?_, rfl, rfl⟩
  · intro h
    simp [adminCall, adminGate, h]
  · intro u hu hr
    simp [adminCall, adminGate, hu, hr]
  · intro u hu hr
    simp [adminCall, adminGate, hu, hr]

/-- Witness for C4: against a sample repository handler, the anonymous
context is rejected Unauthorized, the non-admin session Forbidden, and the
admin session reaches the repository. -/
theorem admin_gate_levels_witness :
    adminCall { user := none } (fun db? => getAllEssays db? none) (some sampleDb) =
      (.error (UnauthorizedError UNAUTHED_ERR_MSG), false) ∧
    adminCall { user := some plainUser } (fun db? => getAllEssays db? none) (some sampleDb) =
      (.error (ForbiddenError NOT_ADMIN_ERR_MSG), false) ∧
    adminCall { user := some adminUser } (fun db? => getAllEssays db? none) (some sampleDb) =
      (.ok (getAllEssays (some sampleDb) none), true) :=
  ⟨(admin_gate_levels { user := none } (fun db? => getAllEssays db? none) (some sampleDb)).1 rfl,
   (admin_gate_levels { user := some plainUser } (fun db? => getAllEssays db? none)
      (some sampleDb)).2.1 plainUser rfl (by decide),
   (admin_gate_levels { user := some adminUser } (fun db? => getAllEssays db? none)
      (some sampleDb)).2.2.1 adminUser rfl rfl⟩

/-- Claim C5: session verification returns the embedded claims only for a
token signed with the configured secret whose expiration lies in the future;
for an absent token, a structurally malformed token, a token signed with a
different secret, an expired token, or a token whose userId/email/role
claims are missing or wrongly typed, it returns the "no session" result
`none` — and, being a total function into `Option`, it never throws. -/
theorem verify_session_token_gate (cfg : String) (nowSec : Int) (token : Option Token) :
    (token = none → verifySessionToken cfg nowSec token = none) ∧
    (∀ raw, token = some (.malformed raw) → verifySessionToken cfg nowSec token = none) ∧
    (∀ secret payload, token = some (.signed secret payload) → ¬ secret = cfg →
      verifySessionToken cfg nowSec token = none) ∧
    (∀ secret payload, token = some (.signed secret payload) → payload.exp ≤ nowSec →
      verifySessionToken cfg nowSec token = none) ∧
    (∀ secret payload, token = some (.signed secret payload) →
      payloadWellTyped payload = false → verifySessionToken cfg nowSec token = none) ∧
    (∀ payload uid em rl, token = some (.signed cfg payload) → nowSec < payload.exp →
      payload.userId = some (.num uid) → payload.email = some (.str em) →
      payload.role = some (.str rl) →
      verifySessionToken cfg nowSec token =
        some { userId := uid, email := em, role := rl }) := by
  refine ⟨?_, ?_, ?_, ?_, ?_, ?_⟩
  · intro h
    subst h
    rfl
  · intro raw h
    subst h
    rfl
  · intro secret payload h hs
    subst h
    simp [verifySessionToken, hs]
  · intro secret payload h he
    subst h
    by_cases hs : secret = cfg
    · subst hs
      simp [verifySessionToken, he]
    · simp [verifySessionToken, hs]
  · intro secret payload h hw
    subst h
    by_cases hs : secret = cfg
    · subst hs
      by_cases he : payload.exp ≤ nowSec
      · simp [verifySessionToken, he]
      · obtain ⟨uid?, em?, rl?, xp⟩ := payload
        simp only [payloadWellTyped] at hw
        simp only [verifySessionToken]
        rw [if_neg (fun hne => hne rfl), if_neg he]
        rcases uid? with _ | uv
        · rfl
        · cases uv with
          | num n =>
              rcases em? with _ | ev
              · rfl
              · cases ev with
                | num n2 => rfl
                | boolean b => rfl
                | null => rfl
                | str s =>
                    rcases rl? with _ | rv
                    · rfl
                    · cases rv with
                      | num n3 => rfl
                      | boolean b => rfl
                      | null => rfl
                      | str r => simp at hw
          | str s2 => rfl
          | boolean b2 => rfl
          | null => rfl
    · simp [verifySessionToken, hs]
  · intro payload uid em rl h hlt hu hem hr
    subst h
    obtain ⟨uid?, em?, rl?, xp⟩ := payload
    subst hu
    subst hem
    subst hr
    simp only [verifySessionToken]
    rw [if_neg (fun hne => hne rfl), if_neg (not_le.mpr hlt)]

/-- Witness for C5: a concrete well-formed token signed with the configured
secret and future expiration verifies to its claims, while the same payload
signed with another secret, an expired variant, a malformed token, and a
wrongly-typed payload all verify to `none`. -/
theorem verify_session_token_gate_witness :
    verifySessionToken "s3cret" 1000
        (some (.signed "s3cret"
          { userId := some (.num 1), email := some (.str "a@b.c"),
            role := some (.str "admin"), exp := 2000 })) =
      some { userId := 1, email := "a@b.c", role := "admin" } ∧
    verifySessionToken "s3cret" 1000
        (some (.signed "other"
          { userId := some (.num 1), email := some (.str "a@b.c"),
            role := some (.str "admin"), exp := 2000 })) = none ∧
    verifySessionToken "s3cret" 1000
        (some (.signed "s3cret"
          { userId := some (.num 1), email := some (.str "a@b.c"),
            role := some (.str "admin"), exp := 900 })) = none ∧
    verifySessionToken "s3cret" 1000 (some (.malformed "not.a.jwt")) = none ∧
    verifySessionToken "s3cret" 1000
        (some (.signed "s3cret"
          { userId := some (.str "1"), email := some (.str "a@b.c"),
            role := some (.str "admin"), exp := 2000 })) = none :=
  ⟨(verify_session_token_gate "s3cret" 1000 _).2.2.2.2.2
      { userId := some (.num 1), email := some (.str "a@b.c"),
        role := some (.str "admin"), exp := 2000 } 1 "a@b.c" "admin"
      rfl (by decide) rfl rfl rfl,
   (verify_session_token_gate "s3cret" 1000 _).2.2.1 "other"
      { userId := some (.num 1), email := some (.str "a@b.c"),
        role := some (.str "admin"), exp := 2000 } rfl (by decide),
   (verify_session_token_gate "s3cret" 1000 _).2.2.2.1 "s3cret"
      { userId := some (.num 1), email := some (.str "a@b.c"),
        role := some (.str "admin"), exp := 900 } rfl (by decide),
   (verify_session_token_gate "s3cret" 1000 _).2.1 "not.a.jwt" rfl,
   (verify_session_token_gate "s3cret" 1000 _).2.2.2.2.1 "s3cret"
      { userId := some (.str "1"), email := some (.str "a@b.c"),
        role := some (.str "admin"), exp := 2000 } rfl rfl⟩

/-- Claim C6: `search.query` always yields an object with all three buckets
present (guaranteed by the result record type): each bucket holds at most 20
rows, the essays and papers buckets hold only `published = true` rows, a
type filter leaves the other two buckets as empty arrays rather than
omitting them, a query matching no stored row yields three empty buckets,
and an unavailable database likewise yields three empty buckets. -/
theorem search_query_shape (db? : Option Db) (q : String) (type? : Option SearchType) :
    ((searchContent db? q type?).photos.length ≤ 20 ∧
      (searchContent db? q type?).essays.length ≤ 20 ∧
      (searchContent db? q type?).papers.length ≤ 20) ∧
    (∀ e ∈ (searchContent db? q type?).essays, e.published = some true) ∧
    (∀ p ∈ (searchContent db? q type?).papers, p.published = some true) ∧
    (type? = some .photos →
      (searchContent db? q type?).essays = [] ∧ (searchContent db? q type?).papers = []) ∧
    (type? = some .essays →
      (searchContent db? q type?).photos = [] ∧ (searchContent db? q type?).papers = []) ∧
    (type? = some .papers →
      (searchContent db? q type?).photos = [] ∧ (searchContent db? q type?).essays = []) ∧
    (∀ db, db? = some db →
      (∀ p ∈ db.photosTable, photoSearchMatch (searchTermOf q) p = false) →
      (∀ e ∈ db.essaysTable, essaySearchMatch (searchTermOf q) e = false) →
      (∀ p ∈ db.papersTable, paperSearchMatch (searchTermOf q) p = false) →
      searchContent db? q type? = {}) ∧
    (db? = none → searchContent db? q type? = {}) := by
  match db? with
  | none =>
      have hz : searchContent none q type? = ({} : SearchResults) := rfl
      refine ⟨⟨?_, ?_, ?_⟩, ?_, ?_, ?_, ?_, ?_, ?_, ?_⟩ <;> simp [hz]
  | some db =>
      refine ⟨⟨?_, ?_, ?_⟩, ?_, ?_, ?_, ?_, ?_, ?_, ?_⟩
      · simp only [searchContent]
        split
        · exact List.length_take_le 20 _
        · simp
      · simp only [searchContent]
        split
        · exact List.length_take_le 20 _
        · simp
      · simp only [searchContent]
        split
        · exact List.length_take_le 20 _
        · simp
      · intro e he
        simp only [searchContent] at he
        split at he
        · have h3 := (List.mem_filter.mp (mem_sortBy.mp (List.mem_of_mem_take he))).2
          simp only [essaySearchMatch, Bool.and_eq_true, beq_iff_eq] at h3
          exact h3.1
        · cases he
      · intro p hp
        simp only [searchContent] at hp
        split at hp
        · have h3 := (List.mem_filter.mp (mem_sortBy.mp (List.mem_of_mem_take hp))).2
          simp only [paperSearchMatch, Bool.and_eq_true, beq_iff_eq] at h3
          exact h3.1
        · cases hp
      · intro ht
        subst ht
        constructor <;> simp [searchContent]
      · intro ht
        subst ht
        constructor <;> simp [searchContent]
      · intro ht
        subst ht
        constructor <;> simp [searchContent]
      · intro db2 hdb hph hes hpa
        cases hdb
        have h1 : db.photosTable.filter (photoSearchMatch (searchTermOf q)) = [] :=
          List.filter_eq_nil_iff.mpr (fun a ha => by simp [hph a ha])
        have h2 : db.essaysTable.filter (essaySearchMatch (searchTermOf q)) = [] :=
          List.filter_eq_nil_iff.mpr (fun a ha => by simp [hes a ha])
        have h3 : db.papersTable.filter (paperSearchMatch (searchTermOf q)) = [] :=
          List.filter_eq_nil_iff.mpr (fun a ha => by simp [hpa a ha])
        simp [searchContent, h1, h2, h3, sortBy]
      · intro h
        simp at h

/-- Witness for C6: on `sampleDb`, the query `"xyz"` — contained in no
searchable field — returns the empty result object with all three keys
present and empty. -/
theorem search_query_shape_witness :
    searchContent (some sampleDb) "xyz" none = {} :=
  (search_query_shape (some sampleDb) "xyz" none).2.2.2.2.2.2.1 sampleDb rfl
    (by decide) (by decide) (by decide)
